import Mathlib

/-!
Verification of the content-generation pipeline: agent contract,
per-stage output validation, orchestrator sequencing, and the pure
sub-task decompositions (sentence splitting, clip durations, response
parsing).

Python dictionaries are modelled as association lists over a value type
`Val`; an exception escaping a piece of code is modelled by `Option`
(for `validate_output`, where `none` means the check itself raised) or
`Except` (for `process`, where `.error` carries the exception).
-/

/-- A Python value as it occurs in the stage payload dictionaries:
a string, a number, a list of strings, or a nested dictionary. -/
inductive Val where
  | str : String → Val
  | num : ℚ → Val
  | list : List String → Val
  | dict : List (String × Val) → Val

/-- A Python dictionary payload: an association list from keys to values.
All dictionaries built by the code have pairwise distinct keys, so
first-match lookup agrees with Python lookup. -/
abbrev Output := List (String × Val)

/-- Python `key in output`. -/
def hasKey (o : Output) (k : String) : Bool :=
  o.any fun p => p.1 == k

/-- Python `output[key]`: `none` models a `KeyError`. -/
def pyGet (o : Output) (k : String) : Option Val :=
  (o.find? fun p => p.1 == k).map Prod.snd

/-- Python truthiness of a value (`if not v`): empty strings, zero,
empty lists and empty dictionaries are falsy. -/
def Val.truthy : Val → Bool
  | .str s => !(s == "")
  | .num q => !(q == 0)
  | .list l => !l.isEmpty
  | .dict d => !d.isEmpty

/-- Python `len(v)`: defined on strings, lists and dictionaries;
`none` models the `TypeError` raised on numbers. -/
def Val.len : Val → Option Nat
  | .str s => some s.length
  | .num _ => none
  | .list l => some l.length
  | .dict d => some d.length

/-- Accumulating splitter behind `pyWords`: `cur` holds the characters of
the word currently being read, in reverse. -/
def wordsAux : List Char → List Char → List String
  | [], [] => []
  | [], cur => [String.mk cur.reverse]
  | ch :: rest, cur =>
    if ch.isWhitespace then
      match cur with
      | [] => wordsAux rest []
      | _ => String.mk cur.reverse :: wordsAux rest []
    else wordsAux rest (ch :: cur)

/-- Python `s.split()`: split on runs of whitespace, discarding empty
pieces, so leading and trailing whitespace contributes no words. -/
def pyWords (s : String) : List String :=
  wordsAux s.toList []

/-- Splitter behind `pySplit`: emits the piece read so far (held in
reverse in `cur`) at each separator occurrence. -/
def splitOnChar (sep : Char) : List Char → List Char → List String
  | [], cur => [String.mk cur.reverse]
  | ch :: rest, cur =>
    if ch == sep then String.mk cur.reverse :: splitOnChar sep rest []
    else splitOnChar sep rest (ch :: cur)

/-- Python `s.split(sep)` for a one-character separator: the pieces
between occurrences of `sep`, empty pieces kept. -/
def pySplit (s : String) (sep : Char) : List String :=
  splitOnChar sep s.toList []

/-- Python `s.strip()`: remove leading and trailing whitespace. -/
def pyStrip (s : String) : String :=
  String.mk ((s.toList.dropWhile Char.isWhitespace).reverse.dropWhile
    Char.isWhitespace).reverse

/-- Python `s.startswith(t)`. -/
def pyStartsWith (s t : String) : Bool :=
  t.toList.isPrefixOf s.toList

/-- Python `s[n:]`: drop the first `n` characters. -/
def pyDrop (s : String) (n : Nat) : String :=
  String.mk (s.toList.drop n)

theorem hasKey_of_pyGet {o : Output} {k : String} {v : Val}
    (h : pyGet o k = some v) : hasKey o k = true := by
  induction o with
  | nil => simp [pyGet] at h
  | cons p rest ih =>
    simp only [pyGet, List.find?] at h
    cases hk : (p.1 == k) with
    | true => simp [hasKey, hk]
    | false =>
      rw [hk] at h
      have hr := ih h
      simp only [hasKey] at hr ⊢
      simp [hk, hr]

namespace BaseAgent

/-- `BaseAgent.run` (base_agent.py, lines 61-84), the template shared by
every agent.  `process` and `validate_output` are the abstract methods a
concrete agent supplies; `.error` / `none` results model exceptions they
raise, all of which the `try` block absorbs into a `None` return. -/
def run (process : Output → Except String Output)
    (validate_output : Output → Option Bool)
    (input_data : Output) : Option Output :=
  match process input_data with
  | .error _ => none
  | .ok output =>
    match validate_output output with
    | some true => some output
    | some false => none
    | none => none

end BaseAgent

namespace ResearchAgent

/-- `ResearchAgent.validate_output` (research_agent.py, lines 54-78):
requires keys facts/sources/metadata, non-empty (truthy) facts and
sources, and at most as many facts as sources.  `none` models the
`TypeError` that `len` would raise on a numeric value. -/
def validate_output (output : Output) : Option Bool :=
  if !(["facts", "sources", "metadata"].all fun k => hasKey output k) then
    some false
  else
    match pyGet output "facts", pyGet output "sources" with
    | some factsV, some sourcesV =>
      if !factsV.truthy || !sourcesV.truthy then some false
      else
        match factsV.len, sourcesV.len with
        | some nFacts, some nSources =>
          if nSources < nFacts then some false else some true
        | _, _ => none
    | _, _ => none

end ResearchAgent

namespace ScriptAgent

/-- `ScriptAgent.validate_output` (script_agent.py, lines 58-83): requires
keys script/hook/call_to_action/metadata, truthy script, hook and
call_to_action, and a whitespace word count of `script` within [50, 300].
`none` models the `AttributeError` that `.split()` would raise on a
non-string script value. -/
def validate_output (output : Output) : Option Bool :=
  if !(["script", "hook", "call_to_action", "metadata"].all fun k => hasKey output k) then
    some false
  else
    match pyGet output "script", pyGet output "hook", pyGet output "call_to_action" with
    | some scriptV, some hookV, some ctaV =>
      if !scriptV.truthy || !hookV.truthy || !ctaV.truthy then some false
      else
        match scriptV with
        | .str s =>
          if (pyWords s).length < 50 || (pyWords s).length > 300 then some false
          else some true
        | _ => none
    | _, _, _ => none

end ScriptAgent

namespace ResearchAgent

/-- Loop of `ResearchAgent._process_research` (research_agent.py, lines
114-134): scan stripped lines, switch section at the header lines, and
collect dash lines into the current section. -/
def process_research_go : List String → Option String → List String → List String →
    List String × List String
  | [], _, facts, sources => (facts, sources)
  | line :: rest, current_section, facts, sources =>
    let line := pyStrip line
    if line == "" then process_research_go rest current_section facts sources
    else if line == "FACTS:" then process_research_go rest (some "facts") facts sources
    else if line == "SOURCES:" then process_research_go rest (some "sources") facts sources
    else if pyStartsWith line "- " then
      if current_section == some "facts" then
        process_research_go rest current_section (facts ++ [pyDrop line 2]) sources
      else if current_section == some "sources" then
        process_research_go rest current_section facts (sources ++ [pyDrop line 2])
      else process_research_go rest current_section facts sources
    else process_research_go rest current_section facts sources

/-- `ResearchAgent._process_research` (research_agent.py, lines 114-134). -/
def process_research (response : String) : List String × List String :=
  process_research_go (pySplit response '\n') none [] []

/-- Declarative reading of a research response, used for the refinement
check of `process_research`: every stripped, non-empty, non-header line
paired with the section named by the most recent header before it
(`none` when no header has occurred yet). -/
def tagged_lines : List String → Option String → List (Option String × String)
  | [], _ => []
  | line :: rest, current_section =>
    let line := pyStrip line
    if line == "" then tagged_lines rest current_section
    else if line == "FACTS:" then tagged_lines rest (some "facts")
    else if line == "SOURCES:" then tagged_lines rest (some "sources")
    else (current_section, line) :: tagged_lines rest current_section

/-- The facts a declarative reader extracts: the dash lines tagged with
the facts section, in order, with the dash removed. -/
def spec_facts (response : String) : List String :=
  ((tagged_lines (pySplit response '\n') none).filter
      fun p => p.1 == some "facts" && pyStartsWith p.2 "- ").map fun p => pyDrop p.2 2

/-- The sources a declarative reader extracts, analogously. -/
def spec_sources (response : String) : List String :=
  ((tagged_lines (pySplit response '\n') none).filter
      fun p => p.1 == some "sources" && pyStartsWith p.2 "- ").map fun p => pyDrop p.2 2

end ResearchAgent

namespace ScriptAgent

/-- The `script_parts` dictionary of `ScriptAgent._process_script`
(script_agent.py, lines 132-136), with its three fixed keys. -/
structure ScriptParts where
  hook : String
  main_content : String
  call_to_action : String
deriving DecidableEq

/-- Python `script_parts[current_section] = value` for the three fixed
keys of `script_parts`. -/
def ScriptParts.set (p : ScriptParts) (current_section value : String) : ScriptParts :=
  if current_section == "hook" then { p with hook := value }
  else if current_section == "main_content" then { p with main_content := value }
  else if current_section == "call_to_action" then { p with call_to_action := value }
  else p

/-- Loop of `ScriptAgent._process_script` (script_agent.py, lines
138-166): scan stripped lines, flushing the accumulated content into
the current section at each header line and once more at the end. -/
def process_script_go : List String → Option String → List String → ScriptParts → ScriptParts
  | [], current_section, current_content, script_parts =>
    (match current_section with
     | some sec => script_parts.set sec (String.intercalate "\n" current_content)
     | none => script_parts)
  | line :: rest, current_section, current_content, script_parts =>
    let line := pyStrip line
    if line == "" then process_script_go rest current_section current_content script_parts
    else if line == "HOOK:" then
      process_script_go rest (some "hook") []
        (match current_section with
         | some sec => script_parts.set sec (String.intercalate "\n" current_content)
         | none => script_parts)
    else if line == "MAIN CONTENT:" then
      process_script_go rest (some "main_content") []
        (match current_section with
         | some sec => script_parts.set sec (String.intercalate "\n" current_content)
         | none => script_parts)
    else if line == "CALL TO ACTION:" then
      process_script_go rest (some "call_to_action") []
        (match current_section with
         | some sec => script_parts.set sec (String.intercalate "\n" current_content)
         | none => script_parts)
    else process_script_go rest current_section (current_content ++ [line]) script_parts

/-- `ScriptAgent._process_script` (script_agent.py, lines 130-168). -/
def process_script (response : String) : ScriptParts :=
  process_script_go (pySplit response '\n') none [] ⟨"", "", ""⟩

/-- `ScriptAgent.process` (script_agent.py, lines 14-56) with the external
text-generation provider abstracted: `response` is the provider reply to
the single call `process` makes (`.error` when that call raised), and
`modelV` is the configured model id recorded in the metadata.  A missing
input field models the `KeyError` the source would raise. -/
def process (response : Except String String) (modelV : Val)
    (input_data : Output) : Except String Output :=
  match pyGet input_data "facts", pyGet input_data "platform",
      pyGet input_data "style", pyGet input_data "duration" with
  | some _, some platformV, some styleV, some durationV =>
    (match response with
     | .error e => .error e
     | .ok response =>
       let script_parts := process_script response
       .ok [("script", .str script_parts.main_content),
            ("hook", .str script_parts.hook),
            ("call_to_action", .str script_parts.call_to_action),
            ("metadata", .dict [("platform", platformV), ("style", styleV),
              ("duration", durationV), ("model", modelV)])])
  | _, _, _, _ => .error "KeyError"

end ScriptAgent

namespace VisualAgent

/-- The sentence decomposition inside `VisualAgent._generate_image_prompts`
(visual_agent.py, line 98): the stripped, non-empty period-delimited
segments of the script, in order. -/
def sentences (script : String) : List String :=
  ((pySplit script '.').map pyStrip).filter fun s => !(s == "")

/-- The prompt built for one sentence (visual_agent.py, lines 103-108),
with the configured agent style and image quality. -/
def image_prompt (selfStyle image_quality style sentence : String) : String :=
  "\n            Create a " ++ style ++ " image that illustrates: " ++ sentence ++
    "\n            Style: " ++ selfStyle ++
    "\n            Quality: " ++ image_quality ++
    "\n            Make it visually appealing and historically accurate.\n            "

/-- `VisualAgent._generate_image_prompts` (visual_agent.py, lines 95-111):
one prompt per sentence of the script. -/
def generate_image_prompts (selfStyle image_quality script style : String) : List String :=
  (sentences script).map fun sentence => image_prompt selfStyle image_quality style sentence

/-- `VisualAgent.validate_output` (visual_agent.py, lines 63-93):
`path_exists` models `os.path.exists` and `image_opens` models
`Image.open` succeeding, the only read-only I/O the check performs; the
early-return loop over the paths equals the conjunction over all of
them.  Iterating a string value iterates its characters and a
dictionary its keys, as in Python; `none` models the `TypeError` of
iterating a number. -/
def validate_output (path_exists image_opens : String → Bool)
    (output : Output) : Option Bool :=
  if !(["image_paths", "metadata"].all fun k => hasKey output k) then some false
  else
    match pyGet output "image_paths" with
    | some pathsV =>
      if !pathsV.truthy then some false
      else
        match pathsV with
        | .list image_paths => some (image_paths.all fun p => path_exists p && image_opens p)
        | .str s => some (s.toList.all fun ch => path_exists ch.toString && image_opens ch.toString)
        | .dict d => some (d.all fun p => path_exists p.1 && image_opens p.1)
        | .num _ => none
    | none => none

end VisualAgent

namespace EditorAgent

/-- `EditorAgent._create_video_clips` (editor_agent.py, lines 113-122).
A clip is modelled as the pair of its image path and its display
duration, durations as exact rationals.  `none` models the
`ZeroDivisionError` of `total_duration / len(image_paths)` on an empty
path list. -/
def create_video_clips (image_paths : List String) (total_duration : ℚ) :
    Option (List (String × ℚ)) :=
  if image_paths.length = 0 then none
  else
    let duration_per_clip := total_duration / image_paths.length
    some (image_paths.map fun image_path => (image_path, duration_per_clip))

/-- The clip-construction slice of `EditorAgent.process` (editor_agent.py,
lines 21-45): read the input fields, build the clips with
`create_video_clips`, and hand them to the remainder of the composition
(transitions, moviepy concatenation, audio overlay, file output),
abstracted as `rest` since it is a thin call into the external
compositor.  A missing input field models the `KeyError` the source
would raise. -/
def process_clips (rest : List (String × ℚ) → Except String Output)
    (input_data : Output) : Except String Output :=
  match pyGet input_data "image_paths", pyGet input_data "audio_path",
      pyGet input_data "platform", pyGet input_data "duration",
      pyGet input_data "aspect_ratio" with
  | some pathsV, some _, some _, some durationV, some _ =>
    (match pathsV, durationV with
     | .list image_paths, .num total_duration =>
       (match create_video_clips image_paths total_duration with
        | none => .error "ZeroDivisionError"
        | some clips => rest clips)
     | _, _ => .error "TypeError")
  | _, _, _, _, _ => .error "KeyError"

end EditorAgent

namespace ContentGenerator

/-- The five stage agents held by the orchestrator (main.py, lines
23-31); each field is the corresponding agent's `run` entry point, the
only operation the orchestrator invokes on it. -/
structure Agents where
  research : Output → Option Output
  script : Output → Option Output
  voice : Output → Option Output
  visual : Output → Option Output
  editor : Output → Option Output

/-- `research_input` (main.py, lines 49-53). -/
def research_input (topic platform : String) (styleV : Val) : Output :=
  [("topic", .str topic), ("platform", .str platform), ("style", styleV)]

/-- `script_input` (main.py, lines 59-64). -/
def script_input (factsV : Val) (platform : String) (styleV durationV : Val) : Output :=
  [("facts", factsV), ("platform", .str platform), ("style", styleV),
   ("duration", durationV)]

/-- `voice_input` (main.py, lines 70-74). -/
def voice_input (scriptV : Val) (platform : String) (styleV : Val) : Output :=
  [("script", scriptV), ("platform", .str platform), ("style", styleV)]

/-- `visual_input` (main.py, lines 80-85). -/
def visual_input (scriptV : Val) (platform : String) (styleV aspectV : Val) : Output :=
  [("script", scriptV), ("platform", .str platform), ("style", styleV),
   ("aspect_ratio", aspectV)]

/-- `editor_input` (main.py, lines 91-97). -/
def editor_input (image_pathsV audio_pathV : Val) (platform : String)
    (durationV aspectV : Val) : Output :=
  [("image_paths", image_pathsV), ("audio_path", audio_pathV),
   ("platform", .str platform), ("duration", durationV), ("aspect_ratio", aspectV)]

/-- `ContentGenerator.generate_content` (main.py, lines 33-117).
`platforms` is the platform section of the loaded configuration.  The
first component is the returned value: `none` models the `return None`
taken whenever the `try` body raises, which covers the configuration
`KeyError`, every stage `run` returning a falsy value (`None` or an
empty dictionary), and every missing field of a stage output.  The
second component records which stage `run` operations were invoked, in
order; the source logs exactly this sequence, one entry at the start of
each `run`, so it is observable behaviour and carries the
which-stages-executed information of the state machine. -/
def generate_content (agents : Agents) (platforms : List (String × Output))
    (topic platform : String) : Option Output × List String :=
  match (platforms.find? fun p => p.1 == platform).map Prod.snd with
  | none => (none, [])
  | some platform_config =>
  match pyGet platform_config "style" with
  | none => (none, [])
  | some styleV =>
  match agents.research (research_input topic platform styleV) with
  | none => (none, ["research"])
  | some research_output =>
  if research_output.isEmpty then (none, ["research"]) else
  match pyGet research_output "facts" with
  | none => (none, ["research"])
  | some factsV =>
  match pyGet platform_config "max_duration" with
  | none => (none, ["research"])
  | some durationV =>
  match agents.script (script_input factsV platform styleV durationV) with
  | none => (none, ["research", "script"])
  | some script_output =>
  if script_output.isEmpty then (none, ["research", "script"]) else
  match pyGet script_output "script" with
  | none => (none, ["research", "script"])
  | some scriptV =>
  match agents.voice (voice_input scriptV platform styleV) with
  | none => (none, ["research", "script", "voice"])
  | some voice_output =>
  if voice_output.isEmpty then (none, ["research", "script", "voice"]) else
  match pyGet platform_config "aspect_ratio" with
  | none => (none, ["research", "script", "voice"])
  | some aspectV =>
  match agents.visual (visual_input scriptV platform styleV aspectV) with
  | none => (none, ["research", "script", "voice", "visual"])
  | some visual_output =>
  if visual_output.isEmpty then (none, ["research", "script", "voice", "visual"]) else
  match pyGet visual_output "image_paths", pyGet voice_output "audio_path" with
  | some image_pathsV, some audio_pathV =>
    (match agents.editor (editor_input image_pathsV audio_pathV platform durationV aspectV) with
     | none => (none, ["research", "script", "voice", "visual", "editor"])
     | some editor_output =>
       if editor_output.isEmpty then
         (none, ["research", "script", "voice", "visual", "editor"])
       else
         match pyGet editor_output "video_path", pyGet research_output "metadata",
             pyGet script_output "metadata", pyGet voice_output "metadata",
             pyGet visual_output "metadata", pyGet editor_output "metadata" with
         | some video_pathV, some researchM, some scriptM, some voiceM,
             some visualM, some editorM =>
           (some [("video_path", video_pathV),
                  ("metadata", .dict [("topic", .str topic), ("platform", .str platform),
                    ("research", researchM), ("script", scriptM), ("voice", voiceM),
                    ("visual", visualM), ("editor", editorM)])],
            ["research", "script", "voice", "visual", "editor"])
         | _, _, _, _, _, _ =>
           (none, ["research", "script", "voice", "visual", "editor"]))
  | _, _ => (none, ["research", "script", "voice", "visual"])

end ContentGenerator

/-- A platform configuration entry with the three fields the orchestrator
reads, used as concrete test input. -/
def mock_platform_config : Output :=
  [("style", Val.str "educational"), ("max_duration", Val.num 60),
   ("aspect_ratio", Val.str "9:16")]

/-- A canned valid research stage output. -/
def mock_research_output : Output :=
  [("facts", Val.list ["f1"]), ("sources", Val.list ["s1"]),
   ("metadata", Val.dict [("stage", Val.str "research")])]

/-- A canned valid script stage output. -/
def mock_script_output : Output :=
  [("script", Val.str "words"), ("hook", Val.str "h"),
   ("call_to_action", Val.str "c"),
   ("metadata", Val.dict [("stage", Val.str "script")])]

/-- A canned valid voice stage output. -/
def mock_voice_output : Output :=
  [("audio_path", Val.str "a.mp3"), ("duration", Val.num 30),
   ("metadata", Val.dict [("stage", Val.str "voice")])]

/-- A canned valid visual stage output. -/
def mock_visual_output : Output :=
  [("image_paths", Val.list ["i0.png"]),
   ("metadata", Val.dict [("stage", Val.str "visual")])]

/-- A canned valid editor stage output. -/
def mock_editor_output : Output :=
  [("video_path", Val.str "v.mp4"),
   ("metadata", Val.dict [("stage", Val.str "editor")])]

/-- Mocked agents whose runs all return the canned valid outputs. -/
def mock_agents : ContentGenerator.Agents :=
  ⟨fun _ => some mock_research_output, fun _ => some mock_script_output,
   fun _ => some mock_voice_output, fun _ => some mock_visual_output,
   fun _ => some mock_editor_output⟩

/-- Mocks with the research stage failing (its run returns NONE). -/
def mock_agents_research_fails : ContentGenerator.Agents :=
  { mock_agents with research := fun _ => none }

/-- Mocks with the script stage failing. -/
def mock_agents_script_fails : ContentGenerator.Agents :=
  { mock_agents with script := fun _ => none }

/-- Mocks with the voice stage failing. -/
def mock_agents_voice_fails : ContentGenerator.Agents :=
  { mock_agents with voice := fun _ => none }

/-- Mocks with the visual stage failing. -/
def mock_agents_visual_fails : ContentGenerator.Agents :=
  { mock_agents with visual := fun _ => none }

/-- Mocks with the editor stage failing. -/
def mock_agents_editor_fails : ContentGenerator.Agents :=
  { mock_agents with editor := fun _ => none }




/-- C1: BaseAgent.run calls process; a raising process yields NONE with no
exception escaping; a successful process whose output fails validation
yields NONE; a successful process whose output validates yields exactly
that output. -/
theorem run_contract (process : Output → Except String Output)
    (validate_output : Output → Option Bool) (input_data : Output) :
    ((∃ e, process input_data = .error e) →
        BaseAgent.run process validate_output input_data = none) ∧
    (∀ output, process input_data = .ok output →
        validate_output output = some false →
        BaseAgent.run process validate_output input_data = none) ∧
    (∀ output, process input_data = .ok output →
        validate_output output = some true →
        BaseAgent.run process validate_output input_data = some output) := by
  refine ⟨fun ⟨e, he⟩ => ?_, fun output hp hv => ?_, fun output hp hv => ?_⟩ <;>
    simp [BaseAgent.run, *]

/-- Witness for C1: all three branches exercised on concrete agents. -/
theorem run_contract_witness :
    BaseAgent.run (fun _ => Except.error "boom") (fun _ => some true) [] = none ∧
    BaseAgent.run (fun _ => Except.ok [("k", Val.str "v")]) (fun _ => some false) [] = none ∧
    BaseAgent.run (fun _ => Except.ok [("k", Val.str "v")]) (fun _ => some true) []
      = some [("k", Val.str "v")] :=
  ⟨(run_contract (fun _ => Except.error "boom") (fun _ => some true) []).1 ⟨"boom", rfl⟩,
   (run_contract (fun _ => Except.ok [("k", Val.str "v")]) (fun _ => some false) []).2.1
     [("k", Val.str "v")] rfl rfl,
   (run_contract (fun _ => Except.ok [("k", Val.str "v")]) (fun _ => some true) []).2.2
     [("k", Val.str "v")] rfl rfl⟩

/-- C2: research validation returns false when a required key is missing,
when facts or sources is an empty list, or when there are strictly more
facts than sources; it returns true when all three keys are present,
both lists are non-empty, and sources count at least matches facts count. -/
theorem research_validate_contract :
    (∀ output : Output,
        (hasKey output "facts" && hasKey output "sources" && hasKey output "metadata") = false →
        ResearchAgent.validate_output output = some false) ∧
    (∀ (output : Output) (facts sources : List String),
        pyGet output "facts" = some (.list facts) →
        pyGet output "sources" = some (.list sources) →
        hasKey output "metadata" = true →
        ((facts = [] ∨ sources = [] ∨ sources.length < facts.length) →
            ResearchAgent.validate_output output = some false) ∧
        (facts ≠ [] → sources ≠ [] → facts.length ≤ sources.length →
            ResearchAgent.validate_output output = some true)) := by
  constructor
  · intro output h
    simp only [Bool.and_eq_false_iff] at h
    unfold ResearchAgent.validate_output
    rcases h with (h | h) | h <;> simp [h]
  · intro output facts sources hf hs hm
    have hkf := hasKey_of_pyGet hf
    have hks := hasKey_of_pyGet hs
    constructor
    · rintro (h | h | h) <;>
        simp [ResearchAgent.validate_output, hkf, hks, hm, hf, hs, Val.truthy,
          Val.len, h, List.isEmpty_iff]
    · intro hfne hsne hle
      simp [ResearchAgent.validate_output, hkf, hks, hm, hf, hs, Val.truthy,
        Val.len, List.isEmpty_iff, hfne, hsne, Nat.not_lt.mpr hle]

/-- Witness for C2: a missing key, an empty list, a facts-heavy output and a
valid output, each checked concretely. -/
theorem research_validate_contract_witness :
    ResearchAgent.validate_output [("facts", Val.list ["a"])] = some false ∧
    ResearchAgent.validate_output
      [("facts", Val.list ["a", "b"]), ("sources", Val.list ["x"]),
       ("metadata", Val.dict [])] = some false ∧
    ResearchAgent.validate_output
      [("facts", Val.list ["a"]), ("sources", Val.list ["x", "y"]),
       ("metadata", Val.dict [])] = some true := by
  refine ⟨research_validate_contract.1 _ (by decide), ?_, ?_⟩
  · exact (research_validate_contract.2
      [("facts", Val.list ["a", "b"]), ("sources", Val.list ["x"]), ("metadata", Val.dict [])]
      ["a", "b"] ["x"] rfl rfl (by decide)).1 (Or.inr (Or.inr (by decide)))
  · exact (research_validate_contract.2
      [("facts", Val.list ["a"]), ("sources", Val.list ["x", "y"]), ("metadata", Val.dict [])]
      ["a"] ["x", "y"] rfl rfl (by decide)).2
      (by decide) (by decide) (by decide)

/-- C3: script validation returns false when a required key is missing, when
one of the three text fields is empty, or when the whitespace word count
of the script is below 50 or above 300; it returns true when all required
keys are present, the three text fields are non-empty, and the word count
lies within [50, 300]. -/
theorem script_validate_contract :
    (∀ output : Output,
        (hasKey output "script" && hasKey output "hook" &&
          hasKey output "call_to_action" && hasKey output "metadata") = false →
        ScriptAgent.validate_output output = some false) ∧
    (∀ (output : Output) (s h c : String),
        pyGet output "script" = some (.str s) →
        pyGet output "hook" = some (.str h) →
        pyGet output "call_to_action" = some (.str c) →
        hasKey output "metadata" = true →
        ((s = "" ∨ h = "" ∨ c = "" ∨ (pyWords s).length < 50 ∨ (pyWords s).length > 300) →
            ScriptAgent.validate_output output = some false) ∧
        (s ≠ "" → h ≠ "" → c ≠ "" →
            50 ≤ (pyWords s).length → (pyWords s).length ≤ 300 →
            ScriptAgent.validate_output output = some true)) := by
  constructor
  · intro output hmiss
    simp only [Bool.and_eq_false_iff] at hmiss
    unfold ScriptAgent.validate_output
    rcases hmiss with ((hh | hh) | hh) | hh <;> simp [hh]
  · intro output s h c hs hh hc hm
    have hks := hasKey_of_pyGet hs
    have hkh := hasKey_of_pyGet hh
    have hkc := hasKey_of_pyGet hc
    constructor
    · rintro (he | he | he | he | he) <;>
        simp [ScriptAgent.validate_output, hks, hkh, hkc, hm, hs, hh, hc,
          Val.truthy, he]
    · intro hsne hhne hcne hlo hhi
      simp [ScriptAgent.validate_output, hks, hkh, hkc, hm, hs, hh, hc,
        Val.truthy, hsne, hhne, hcne]
      omega

set_option maxRecDepth 8000 in
/-- Witness for C3: a missing key, a short script, and a valid script with a
word count of 50, each checked concretely. -/
theorem script_validate_contract_witness :
    ScriptAgent.validate_output [("script", Val.str "hello")] = some false ∧
    ScriptAgent.validate_output
      [("script", Val.str "too short"), ("hook", Val.str "h"),
       ("call_to_action", Val.str "c"), ("metadata", Val.dict [])] = some false ∧
    ScriptAgent.validate_output
      [("script", Val.str (String.intercalate " " (List.replicate 50 "w"))),
       ("hook", Val.str "h"), ("call_to_action", Val.str "c"),
       ("metadata", Val.dict [])] = some true := by
  refine ⟨script_validate_contract.1 _ (by decide), ?_, ?_⟩
  · exact (script_validate_contract.2
      [("script", Val.str "too short"), ("hook", Val.str "h"),
       ("call_to_action", Val.str "c"), ("metadata", Val.dict [])]
      "too short" "h" "c" rfl rfl rfl (by decide)).1
      (Or.inr (Or.inr (Or.inr (Or.inl (by decide)))))
  · exact (script_validate_contract.2
      [("script", Val.str (String.intercalate " " (List.replicate 50 "w"))),
       ("hook", Val.str "h"), ("call_to_action", Val.str "c"), ("metadata", Val.dict [])]
      (String.intercalate " " (List.replicate 50 "w")) "h" "c" rfl rfl rfl (by decide)).2
      (by decide) (by decide) (by decide) (by decide) (by decide)

/-- C6: for every non-empty list of image paths and every total duration,
the editor decomposition assigns each clip the same display duration
total_duration / image_count. -/
theorem clip_durations_uniform (image_paths : List String) (total_duration : ℚ)
    (h : image_paths ≠ []) :
    ∃ clips, EditorAgent.create_video_clips image_paths total_duration = some clips ∧
      clips.length = image_paths.length ∧
      ∀ c ∈ clips, c.2 = total_duration / image_paths.length := by
  refine ⟨image_paths.map fun p => (p, total_duration / image_paths.length),
    ?_, by simp, ?_⟩
  · simp [EditorAgent.create_video_clips, List.length_eq_zero, h]
  · intro c hc
    simp only [List.mem_map] at hc
    obtain ⟨p, _, rfl⟩ := hc
    rfl

/-- Witness for C6: two images over three seconds. -/
theorem clip_durations_uniform_witness :
    ∃ clips, EditorAgent.create_video_clips ["a.png", "b.png"] 3 = some clips ∧
      clips.length = (["a.png", "b.png"] : List String).length ∧
      ∀ c ∈ clips, c.2 = 3 / ((["a.png", "b.png"] : List String).length : ℚ) :=
  clip_durations_uniform ["a.png", "b.png"] 3 (by decide)

/-- C7: the visual decomposition yields exactly one image prompt per
sentence, the sentences being the stripped, non-empty period-delimited
segments of the script in order, and two invocations on identical
arguments return identical prompt lists. -/
theorem visual_prompt_decomposition (selfStyle image_quality script style : String) :
    VisualAgent.generate_image_prompts selfStyle image_quality script style
      = (VisualAgent.sentences script).map
          (fun sentence => VisualAgent.image_prompt selfStyle image_quality style sentence) ∧
    (VisualAgent.generate_image_prompts selfStyle image_quality script style).length
      = (VisualAgent.sentences script).length ∧
    VisualAgent.generate_image_prompts selfStyle image_quality script style
      = VisualAgent.generate_image_prompts selfStyle image_quality script style :=
  ⟨rfl, by simp [VisualAgent.generate_image_prompts], rfl⟩

/-- C9: the clip construction divides by the image count without a guard:
on an empty path list it signals ZeroDivisionError, which run absorbs
into NONE; on any non-empty list the division is defined and clip
construction succeeds; and a visual output whose image_paths list passes
validation is never empty, so pipeline-supplied editor inputs cannot
reach the error branch. -/
theorem clip_division_guard :
    (∀ total_duration : ℚ, EditorAgent.create_video_clips [] total_duration = none) ∧
    (∀ (rest : List (String × ℚ) → Except String Output)
        (validate : Output → Option Bool) (audio_pathV : Val) (platform : String)
        (aspectV : Val) (total_duration : ℚ),
        EditorAgent.process_clips rest
            (ContentGenerator.editor_input (Val.list []) audio_pathV platform
              (Val.num total_duration) aspectV) = .error "ZeroDivisionError" ∧
        BaseAgent.run (EditorAgent.process_clips rest) validate
            (ContentGenerator.editor_input (Val.list []) audio_pathV platform
              (Val.num total_duration) aspectV) = none) ∧
    (∀ (image_paths : List String) (total_duration : ℚ), image_paths ≠ [] →
        ∃ clips, EditorAgent.create_video_clips image_paths total_duration = some clips) ∧
    (∀ (path_exists image_opens : String → Bool) (output : Output)
        (image_paths : List String),
        VisualAgent.validate_output path_exists image_opens output = some true →
        pyGet output "image_paths" = some (.list image_paths) →
        image_paths ≠ []) := by
  refine ⟨fun total_duration => rfl,
    fun rest validate audio_pathV platform aspectV total_duration => ⟨rfl, rfl⟩,
    fun image_paths total_duration h => ?_,
    fun path_exists image_opens output image_paths hval hget => ?_⟩
  · exact ⟨image_paths.map fun p => (p, total_duration / image_paths.length),
      by simp [EditorAgent.create_video_clips, List.length_eq_zero, h]⟩
  · rintro rfl
    unfold VisualAgent.validate_output at hval
    rw [hget] at hval
    split at hval
    · exact absurd hval (by simp)
    · simp [Val.truthy] at hval

/-- Witness for C9: the empty-input error, its absorption by run, a
successful one-image construction, and a validated visual output. -/
theorem clip_division_guard_witness :
    EditorAgent.create_video_clips [] 5 = none ∧
    EditorAgent.process_clips (fun _ => Except.ok [])
        (ContentGenerator.editor_input (Val.list []) (Val.str "a.mp3") "tiktok"
          (Val.num 5) (Val.str "9:16")) = Except.error "ZeroDivisionError" ∧
    BaseAgent.run (EditorAgent.process_clips fun _ => Except.ok [])
        (fun _ => some true)
        (ContentGenerator.editor_input (Val.list []) (Val.str "a.mp3") "tiktok"
          (Val.num 5) (Val.str "9:16")) = none ∧
    (∃ clips, EditorAgent.create_video_clips ["i0.png"] 5 = some clips) ∧
    (["i0.png"] : List String) ≠ [] :=
  ⟨clip_division_guard.1 5,
   (clip_division_guard.2.1 (fun _ => Except.ok []) (fun _ => some true) (Val.str "a.mp3")
      "tiktok" (Val.str "9:16") 5).1,
   (clip_division_guard.2.1 (fun _ => Except.ok []) (fun _ => some true) (Val.str "a.mp3")
      "tiktok" (Val.str "9:16") 5).2,
   clip_division_guard.2.2.1 ["i0.png"] 5 (by decide),
   clip_division_guard.2.2.2 (fun _ => true) (fun _ => true)
     [("image_paths", Val.list ["i0.png"]), ("metadata", Val.dict [])] ["i0.png"]
     rfl rfl⟩

/-- Auxiliary for C8: while no marker line has occurred, the section stays
unset, so the parts dictionary is never written. -/
theorem process_script_go_no_markers (lines : List String) :
    ∀ (current_content : List String) (script_parts : ScriptAgent.ScriptParts),
      (∀ l ∈ lines, pyStrip l ≠ "HOOK:" ∧ pyStrip l ≠ "MAIN CONTENT:" ∧
          pyStrip l ≠ "CALL TO ACTION:") →
      ScriptAgent.process_script_go lines none current_content script_parts
        = script_parts := by
  induction lines with
  | nil => intro cc sp hm; rfl
  | cons line rest ih =>
    intro cc sp hm
    obtain ⟨h1, h2, h3⟩ := hm line (List.mem_cons_self line rest)
    have hrest : ∀ l ∈ rest, pyStrip l ≠ "HOOK:" ∧ pyStrip l ≠ "MAIN CONTENT:" ∧
        pyStrip l ≠ "CALL TO ACTION:" :=
      fun l hl => hm l (List.mem_cons_of_mem _ hl)
    have e1 : (pyStrip line == "HOOK:") = false := beq_eq_false_iff_ne.mpr h1
    have e2 : (pyStrip line == "MAIN CONTENT:") = false := beq_eq_false_iff_ne.mpr h2
    have e3 : (pyStrip line == "CALL TO ACTION:") = false := beq_eq_false_iff_ne.mpr h3
    by_cases h0 : pyStrip line = ""
    · simp only [ScriptAgent.process_script_go, h0]
      simpa using ih cc sp hrest
    · have e0 : (pyStrip line == "") = false := beq_eq_false_iff_ne.mpr h0
      simp only [ScriptAgent.process_script_go, e0, e1, e2, e3, Bool.false_eq_true,
        if_false]
      exact ih _ sp hrest

/-- C8: a provider response containing none of the marker lines HOOK:,
MAIN CONTENT: and CALL TO ACTION: makes the script process produce
all-empty hook, main content and call to action; script validation
rejects that output, so ScriptAgent.run returns NONE. -/
theorem script_response_without_markers (response : String) (modelV : Val)
    (input_data : Output) (factsV platformV styleV durationV : Val)
    (hfa : pyGet input_data "facts" = some factsV)
    (hpl : pyGet input_data "platform" = some platformV)
    (hst : pyGet input_data "style" = some styleV)
    (hdu : pyGet input_data "duration" = some durationV)
    (hmark : ∀ l ∈ pySplit response '\n',
        pyStrip l ≠ "HOOK:" ∧ pyStrip l ≠ "MAIN CONTENT:" ∧
          pyStrip l ≠ "CALL TO ACTION:") :
    ScriptAgent.process_script response = ⟨"", "", ""⟩ ∧
    ScriptAgent.process (.ok response) modelV input_data =
      .ok [("script", Val.str ""), ("hook", Val.str ""), ("call_to_action", Val.str ""),
           ("metadata", Val.dict [("platform", platformV), ("style", styleV),
             ("duration", durationV), ("model", modelV)])] ∧
    ScriptAgent.validate_output
      [("script", Val.str ""), ("hook", Val.str ""), ("call_to_action", Val.str ""),
       ("metadata", Val.dict [("platform", platformV), ("style", styleV),
         ("duration", durationV), ("model", modelV)])] = some false ∧
    BaseAgent.run (ScriptAgent.process (.ok response) modelV) ScriptAgent.validate_output
      input_data = none := by
  have hps : ScriptAgent.process_script response = ⟨"", "", ""⟩ :=
    process_script_go_no_markers (pySplit response '\n') [] ⟨"", "", ""⟩ hmark
  have hproc : ScriptAgent.process (.ok response) modelV input_data =
      .ok [("script", Val.str ""), ("hook", Val.str ""), ("call_to_action", Val.str ""),
           ("metadata", Val.dict [("platform", platformV), ("style", styleV),
             ("duration", durationV), ("model", modelV)])] := by
    simp [ScriptAgent.process, hfa, hpl, hst, hdu, hps]
  have hval : ScriptAgent.validate_output
      [("script", Val.str ""), ("hook", Val.str ""), ("call_to_action", Val.str ""),
       ("metadata", Val.dict [("platform", platformV), ("style", styleV),
         ("duration", durationV), ("model", modelV)])] = some false := rfl
  refine ⟨hps, hproc, hval, ?_⟩
  simp [BaseAgent.run, hproc, hval]

/-- Witness for C8: a concrete marker-free response makes run return NONE. -/
theorem script_response_without_markers_witness :
    BaseAgent.run
      (ScriptAgent.process (.ok "Once upon a time.\nThe end.") (Val.str "gpt-4"))
      ScriptAgent.validate_output
      [("facts", Val.list ["f"]), ("platform", Val.str "tiktok"),
       ("style", Val.str "fun"), ("duration", Val.num 30)] = none :=
  (script_response_without_markers "Once upon a time.\nThe end." (Val.str "gpt-4")
    [("facts", Val.list ["f"]), ("platform", Val.str "tiktok"),
     ("style", Val.str "fun"), ("duration", Val.num 30)]
    (Val.list ["f"]) (Val.str "tiktok") (Val.str "fun") (Val.num 30)
    rfl rfl rfl rfl (by decide)).2.2.2

/-- Auxiliary for C10: the loop extends its accumulators with exactly the
dash lines of the tagged remainder, in order. -/
theorem process_research_go_spec (lines : List String) :
    ∀ (current_section : Option String) (facts sources : List String),
      ResearchAgent.process_research_go lines current_section facts sources =
        (facts ++ ((ResearchAgent.tagged_lines lines current_section).filter
            (fun p => p.1 == some "facts" && pyStartsWith p.2 "- ")).map
              (fun p => pyDrop p.2 2),
         sources ++ ((ResearchAgent.tagged_lines lines current_section).filter
            (fun p => p.1 == some "sources" && pyStartsWith p.2 "- ")).map
              (fun p => pyDrop p.2 2)) := by
  induction lines with
  | nil =>
    intro cur facts sources
    simp [ResearchAgent.process_research_go, ResearchAgent.tagged_lines]
  | cons line rest ih =>
    intro cur facts sources
    simp only [ResearchAgent.process_research_go, ResearchAgent.tagged_lines]
    by_cases h0 : pyStrip line = ""
    · simp [h0, ih]
    · have e0 : (pyStrip line == "") = false := beq_eq_false_iff_ne.mpr h0
      by_cases h1 : pyStrip line = "FACTS:"
      · simp [e0, h1, ih]
      · have e1 : (pyStrip line == "FACTS:") = false := beq_eq_false_iff_ne.mpr h1
        by_cases h2 : pyStrip line = "SOURCES:"
        · simp [e0, e1, h2, ih]
        · have e2 : (pyStrip line == "SOURCES:") = false := beq_eq_false_iff_ne.mpr h2
          by_cases h3 : pyStartsWith (pyStrip line) "- " = true
          · by_cases h4 : cur = some "facts"
            · simp [e0, e1, e2, h3, h4, ih]
            · have e4 : (cur == some "facts") = false := beq_eq_false_iff_ne.mpr h4
              by_cases h5 : cur = some "sources"
              · simp [e0, e1, e2, h3, h5, ih]
              · have e5 : (cur == some "sources") = false := beq_eq_false_iff_ne.mpr h5
                simp [e0, e1, e2, h3, e4, e5, ih]
          · have e3 : pyStartsWith (pyStrip line) "- " = false :=
              Bool.not_eq_true _ ▸ eq_false_of_ne_true h3
            simp [e0, e1, e2, e3, ih]

/-- C10: the research response parser returns exactly the dash lines
appearing after the matching FACTS: or SOURCES: header, with the dash
removed and in order of appearance; every other line, including dash
lines before any header, contributes nothing. -/
theorem process_research_spec (response : String) :
    ResearchAgent.process_research response =
      (ResearchAgent.spec_facts response, ResearchAgent.spec_sources response) := by
  simpa [ResearchAgent.process_research, ResearchAgent.spec_facts,
    ResearchAgent.spec_sources] using
    process_research_go_spec (pySplit response '\n') none [] []

/-- C4: whenever a stage run returns NONE, generate_content returns the
failure indicator none (no exception reaches the caller: the function is
total with none on every failure path) and no later stage run is
invoked: the invocation trace stops at the failing stage.  The five
conjuncts cover a failure at each of the five stages. -/
theorem pipeline_short_circuit (agents : ContentGenerator.Agents)
    (platforms : List (String × Output)) (topic platform : String)
    (platform_config : Output) (styleV : Val)
    (hpc : (platforms.find? fun p => p.1 == platform).map Prod.snd = some platform_config)
    (hstyle : pyGet platform_config "style" = some styleV) :
    (agents.research (ContentGenerator.research_input topic platform styleV) = none →
        ContentGenerator.generate_content agents platforms topic platform
          = (none, ["research"])) ∧
    (∀ research_output factsV durationV,
        agents.research (ContentGenerator.research_input topic platform styleV)
          = some research_output →
        research_output.isEmpty = false →
        pyGet research_output "facts" = some factsV →
        pyGet platform_config "max_duration" = some durationV →
        agents.script (ContentGenerator.script_input factsV platform styleV durationV)
          = none →
        ContentGenerator.generate_content agents platforms topic platform
          = (none, ["research", "script"])) ∧
    (∀ research_output factsV durationV script_output scriptV,
        agents.research (ContentGenerator.research_input topic platform styleV)
          = some research_output →
        research_output.isEmpty = false →
        pyGet research_output "facts" = some factsV →
        pyGet platform_config "max_duration" = some durationV →
        agents.script (ContentGenerator.script_input factsV platform styleV durationV)
          = some script_output →
        script_output.isEmpty = false →
        pyGet script_output "script" = some scriptV →
        agents.voice (ContentGenerator.voice_input scriptV platform styleV) = none →
        ContentGenerator.generate_content agents platforms topic platform
          = (none, ["research", "script", "voice"])) ∧
    (∀ research_output factsV durationV script_output scriptV voice_output aspectV,
        agents.research (ContentGenerator.research_input topic platform styleV)
          = some research_output →
        research_output.isEmpty = false →
        pyGet research_output "facts" = some factsV →
        pyGet platform_config "max_duration" = some durationV →
        agents.script (ContentGenerator.script_input factsV platform styleV durationV)
          = some script_output →
        script_output.isEmpty = false →
        pyGet script_output "script" = some scriptV →
        agents.voice (ContentGenerator.voice_input scriptV platform styleV)
          = some voice_output →
        voice_output.isEmpty = false →
        pyGet platform_config "aspect_ratio" = some aspectV →
        agents.visual (ContentGenerator.visual_input scriptV platform styleV aspectV)
          = none →
        ContentGenerator.generate_content agents platforms topic platform
          = (none, ["research", "script", "voice", "visual"])) ∧
    (∀ research_output factsV durationV script_output scriptV voice_output aspectV
        visual_output image_pathsV audio_pathV,
        agents.research (ContentGenerator.research_input topic platform styleV)
          = some research_output →
        research_output.isEmpty = false →
        pyGet research_output "facts" = some factsV →
        pyGet platform_config "max_duration" = some durationV →
        agents.script (ContentGenerator.script_input factsV platform styleV durationV)
          = some script_output →
        script_output.isEmpty = false →
        pyGet script_output "script" = some scriptV →
        agents.voice (ContentGenerator.voice_input scriptV platform styleV)
          = some voice_output →
        voice_output.isEmpty = false →
        pyGet platform_config "aspect_ratio" = some aspectV →
        agents.visual (ContentGenerator.visual_input scriptV platform styleV aspectV)
          = some visual_output →
        visual_output.isEmpty = false →
        pyGet visual_output "image_paths" = some image_pathsV →
        pyGet voice_output "audio_path" = some audio_pathV →
        agents.editor (ContentGenerator.editor_input image_pathsV audio_pathV platform
          durationV aspectV) = none →
        ContentGenerator.generate_content agents platforms topic platform
          = (none, ["research", "script", "voice", "visual", "editor"])) := by
  refine ⟨fun h1 => ?_,
    fun ro factsV durationV h1 h2 h3 h4 h5 => ?_,
    fun ro factsV durationV so scriptV h1 h2 h3 h4 h5 h6 h7 h8 => ?_,
    fun ro factsV durationV so scriptV vo aspectV h1 h2 h3 h4 h5 h6 h7 h8 h9 h10 h11 => ?_,
    fun ro factsV durationV so scriptV vo aspectV vso image_pathsV audio_pathV
      h1 h2 h3 h4 h5 h6 h7 h8 h9 h10 h11 h12 h13 h14 h15 => ?_⟩ <;>
  simp only [ContentGenerator.generate_content, hpc, hstyle, *] <;> rfl

/-- Witness for C4: each stage in turn mocked to fail, with the preceding
stages returning canned valid outputs. -/
theorem pipeline_short_circuit_witness :
    ContentGenerator.generate_content mock_agents_research_fails
        [("youtube_shorts", mock_platform_config)] "Pyramids" "youtube_shorts"
      = (none, ["research"]) ∧
    ContentGenerator.generate_content mock_agents_script_fails
        [("youtube_shorts", mock_platform_config)] "Pyramids" "youtube_shorts"
      = (none, ["research", "script"]) ∧
    ContentGenerator.generate_content mock_agents_voice_fails
        [("youtube_shorts", mock_platform_config)] "Pyramids" "youtube_shorts"
      = (none, ["research", "script", "voice"]) ∧
    ContentGenerator.generate_content mock_agents_visual_fails
        [("youtube_shorts", mock_platform_config)] "Pyramids" "youtube_shorts"
      = (none, ["research", "script", "voice", "visual"]) ∧
    ContentGenerator.generate_content mock_agents_editor_fails
        [("youtube_shorts", mock_platform_config)] "Pyramids" "youtube_shorts"
      = (none, ["research", "script", "voice", "visual", "editor"]) :=
  ⟨(pipeline_short_circuit mock_agents_research_fails
      [("youtube_shorts", mock_platform_config)] "Pyramids" "youtube_shorts"
      mock_platform_config (Val.str "educational") rfl rfl).1 rfl,
   (pipeline_short_circuit mock_agents_script_fails
      [("youtube_shorts", mock_platform_config)] "Pyramids" "youtube_shorts"
      mock_platform_config (Val.str "educational") rfl rfl).2.1
      mock_research_output (Val.list ["f1"]) (Val.num 60) rfl rfl rfl rfl rfl,
   (pipeline_short_circuit mock_agents_voice_fails
      [("youtube_shorts", mock_platform_config)] "Pyramids" "youtube_shorts"
      mock_platform_config (Val.str "educational") rfl rfl).2.2.1
      mock_research_output (Val.list ["f1"]) (Val.num 60) mock_script_output
      (Val.str "words") rfl rfl rfl rfl rfl rfl rfl rfl,
   (pipeline_short_circuit mock_agents_visual_fails
      [("youtube_shorts", mock_platform_config)] "Pyramids" "youtube_shorts"
      mock_platform_config (Val.str "educational") rfl rfl).2.2.2.1
      mock_research_output (Val.list ["f1"]) (Val.num 60) mock_script_output
      (Val.str "words") mock_voice_output (Val.str "9:16")
      rfl rfl rfl rfl rfl rfl rfl rfl rfl rfl rfl,
   (pipeline_short_circuit mock_agents_editor_fails
      [("youtube_shorts", mock_platform_config)] "Pyramids" "youtube_shorts"
      mock_platform_config (Val.str "educational") rfl rfl).2.2.2.2
      mock_research_output (Val.list ["f1"]) (Val.num 60) mock_script_output
      (Val.str "words") mock_voice_output (Val.str "9:16") mock_visual_output
      (Val.list ["i0.png"]) (Val.str "a.mp3")
      rfl rfl rfl rfl rfl rfl rfl rfl rfl rfl rfl rfl rfl rfl rfl⟩

/-- C5: when all five stage runs return valid outputs, generate_content
returns the dictionary whose video path is the editor output's video
path, and whose metadata is the merge of topic, platform, and the five
stage metadata values in stage order. -/
theorem pipeline_success_assembly (agents : ContentGenerator.Agents)
    (platforms : List (String × Output)) (topic platform : String)
    (platform_config : Output)
    (styleV durationV aspectV : Val)
    (research_output script_output voice_output visual_output editor_output : Output)
    (factsV researchM scriptV scriptM audio_pathV voiceM image_pathsV visualM
      video_pathV editorM : Val)
    (hpc : (platforms.find? fun p => p.1 == platform).map Prod.snd = some platform_config)
    (hstyle : pyGet platform_config "style" = some styleV)
    (hdur : pyGet platform_config "max_duration" = some durationV)
    (haspect : pyGet platform_config "aspect_ratio" = some aspectV)
    (hres : agents.research (ContentGenerator.research_input topic platform styleV)
      = some research_output)
    (hresne : research_output.isEmpty = false)
    (hfacts : pyGet research_output "facts" = some factsV)
    (hresM : pyGet research_output "metadata" = some researchM)
    (hscr : agents.script (ContentGenerator.script_input factsV platform styleV durationV)
      = some script_output)
    (hscrne : script_output.isEmpty = false)
    (hscript : pyGet script_output "script" = some scriptV)
    (hscrM : pyGet script_output "metadata" = some scriptM)
    (hvoi : agents.voice (ContentGenerator.voice_input scriptV platform styleV)
      = some voice_output)
    (hvoine : voice_output.isEmpty = false)
    (haudio : pyGet voice_output "audio_path" = some audio_pathV)
    (hvoiM : pyGet voice_output "metadata" = some voiceM)
    (hvis : agents.visual (ContentGenerator.visual_input scriptV platform styleV aspectV)
      = some visual_output)
    (hvisne : visual_output.isEmpty = false)
    (himg : pyGet visual_output "image_paths" = some image_pathsV)
    (hvisM : pyGet visual_output "metadata" = some visualM)
    (hed : agents.editor (ContentGenerator.editor_input image_pathsV audio_pathV platform
      durationV aspectV) = some editor_output)
    (hedne : editor_output.isEmpty = false)
    (hvideo : pyGet editor_output "video_path" = some video_pathV)
    (hedM : pyGet editor_output "metadata" = some editorM) :
    ContentGenerator.generate_content agents platforms topic platform =
      (some [("video_path", video_pathV),
             ("metadata", Val.dict [("topic", Val.str topic),
               ("platform", Val.str platform), ("research", researchM),
               ("script", scriptM), ("voice", voiceM), ("visual", visualM),
               ("editor", editorM)])],
       ["research", "script", "voice", "visual", "editor"]) := by
  simp only [ContentGenerator.generate_content, hpc, hstyle, hdur, haspect, hres,
    hresne, hfacts, hresM, hscr, hscrne, hscript, hscrM, hvoi, hvoine, haudio,
    hvoiM, hvis, hvisne, himg, hvisM, hed, hedne, hvideo, hedM]
  rfl

/-- Witness for C5: all five mocked agents return canned valid outputs for
the end-to-end scenario, and the result carries the editor video path
and all five metadata entries. -/
theorem pipeline_success_assembly_witness :
    ContentGenerator.generate_content mock_agents
        [("youtube_shorts", mock_platform_config)]
        "Ancient Egyptian Pyramids" "youtube_shorts" =
      (some [("video_path", Val.str "v.mp4"),
             ("metadata", Val.dict [("topic", Val.str "Ancient Egyptian Pyramids"),
               ("platform", Val.str "youtube_shorts"),
               ("research", Val.dict [("stage", Val.str "research")]),
               ("script", Val.dict [("stage", Val.str "script")]),
               ("voice", Val.dict [("stage", Val.str "voice")]),
               ("visual", Val.dict [("stage", Val.str "visual")]),
               ("editor", Val.dict [("stage", Val.str "editor")])])],
       ["research", "script", "voice", "visual", "editor"]) :=
  pipeline_success_assembly mock_agents [("youtube_shorts", mock_platform_config)]
    "Ancient Egyptian Pyramids" "youtube_shorts" mock_platform_config
    (Val.str "educational") (Val.num 60) (Val.str "9:16")
    mock_research_output mock_script_output mock_voice_output mock_visual_output
    mock_editor_output
    (Val.list ["f1"]) (Val.dict [("stage", Val.str "research")])
    (Val.str "words") (Val.dict [("stage", Val.str "script")])
    (Val.str "a.mp3") (Val.dict [("stage", Val.str "voice")])
    (Val.list ["i0.png"]) (Val.dict [("stage", Val.str "visual")])
    (Val.str "v.mp4") (Val.dict [("stage", Val.str "editor")])
    rfl rfl rfl rfl rfl rfl rfl rfl rfl rfl rfl rfl rfl rfl rfl rfl rfl rfl rfl rfl
    rfl rfl rfl rfl
